import Mathlib

/-!
# Verification of `render_node_locations.py` (blender-node-renderer)

A shallow embedding of the Blender batch-render script
`src/render_node_locations.py`.  The script is a thin automation layer over
the host application (Blender): it enumerates the objects of the collection
named `FPV_nodes`, and for each such marker and each entry of a fixed
rotation-angle table it positions the active camera, sets the render output
path, and invokes the host's render operation.

The host state touched by the program (the scene's collections, the active
camera's location and rotation, the global render output path, and the set
of image files on disk) is modelled as an explicit record `HostState`
threaded through the functions.  Every observable action of the program
(camera-location write, camera-rotation write, output-path write, render
invocation) is additionally recorded in an event trace inside the state, so
that ordering and "exactly once" properties can be read off the trace.

Numeric conventions:
* Angles produced by `math.radians(d) = d * π / 180` are represented exactly
  by their coefficient of π, i.e. the rational `d / 180`.  The program does
  no further arithmetic on these values (they are only stored and compared),
  so this representation is faithful.
* Object locations are 3-vectors of rationals; the program only copies them,
  never computes with them.

Render invocations may fail in the host; this is modelled by an oracle
`ok : Nat → Bool` giving the outcome of the n-th render invocation of the
run (counted from 0).  A failing invocation aborts the run with the host
state at the point of failure, mirroring the uncaught exception in the
script.
-/

/-- A 3D position (x, y, z).  The program never computes with coordinates,
it only copies them, so rationals stand in faithfully for the host's
floats. -/
abbrev Vec3 := ℚ × ℚ × ℚ

/-- A rotation triple (pitch, roll, yaw), each component being the
coefficient of π of an angle in radians. -/
abbrev Rot3 := ℚ × ℚ × ℚ

/-- A scene object as the enumerator sees it: its name and its location. -/
structure Obj where
  name : String
  location : Vec3
deriving DecidableEq, Repr

/-- One observable action of the program on the host. -/
inductive Event where
  /-- Embeds `CAMERA.location = ...`. -/
  | setLoc (v : Vec3)
  /-- Embeds `CAMERA.rotation_euler = ...`. -/
  | setRot (r : Rot3)
  /-- Embeds `SCENE.render.filepath = ...`. -/
  | setPath (p : String)
  /-- Embeds `bpy.ops.render.render(write_still=True)`, invoked with the
  given current output path. -/
  | render (p : String)
deriving DecidableEq, Repr

/-- The host (Blender) state visible to the program: the scene's named
collections (each a list of contained objects, in the host's enumeration
order), the active camera's location and rotation, the global render
output path `SCENE.render.filepath`, the image files on disk (paths, in
order of writing), and the trace of observable actions performed so far. -/
structure HostState where
  collections : List (String × List Obj)
  camera_location : Vec3
  camera_rotation : Rot3
  filepath : String
  files : List String
  trace : List Event
deriving DecidableEq, Repr

/-- Embeds `math.radians`: degrees to radians, represented exactly as the
coefficient of π (`math.radians(d) = d·π/180` is embedded as `d/180`). -/
def radians (d : ℚ) : ℚ := d / 180

/-- Embeds the constant `NODE_COLLECTION = "FPV_nodes"`. -/
def NODE_COLLECTION : String := "FPV_nodes"

/-- Embeds `ROTATION_ANGLES`: the fixed table mapping a compass heading (integer
degrees) to the camera rotation triple (pitch, roll, yaw) in radians.
Python dicts preserve insertion order, so a list of pairs is faithful. -/
def ROTATION_ANGLES : List (Int × Rot3) :=
  [ (0, (radians 90, radians 0, radians 0)),
    (45, (radians 90, radians 0, radians (-45))),
    (90, (radians 90, radians 0, radians (-90))),
    (135, (radians 90, radians 0, radians (-135))),
    (180, (radians 90, radians 0, radians (-180))),
    (225, (radians 90, radians 0, radians (-225))),
    (270, (radians 90, radians 0, radians (-270))),
    (315, (radians 90, radians 0, radians (-315))) ]

/-- Embeds `bpy.data.collections[name]`: look a collection up by name; `none`
models the `KeyError` the host raises when the collection is absent. -/
def lookupCollection (s : HostState) (name : String) : Option (List Obj) :=
  (s.collections.find? (fun p => p.1 == name)).map Prod.snd

/-- One entry of the list built by `get_node_locations`: the dictionary
`{"node": obj.name, "loc": obj.location}`. -/
structure NodeEntry where
  node : String
  loc : Vec3
deriving DecidableEq, Repr

/-- Embeds `get_node_locations()`: for each object of the `FPV_nodes` collection,
in the host's enumeration order, record its name and location.  A missing
collection raises (`KeyError`), which propagates with the host state
unchanged. -/
def get_node_locations (s : HostState) : Except HostState (List NodeEntry) :=
  match lookupCollection s NODE_COLLECTION with
  | none => .error s
  | some objs => .ok (objs.map (fun obj => { node := obj.name, loc := obj.location }))

/-- Embeds the f-string `\x7bnode_name\x7d__angle_\x7bk\x7d.png`: the output filename for one
(marker, heading) pair. -/
def output_file (node_name : String) (k : Int) : String :=
  node_name ++ "__angle_" ++ toString k ++ ".png"

/-- Embeds `str(Path(dir, file))` for the relative filename parts this program
produces: trailing `/` of `dir` are dropped and the parts are joined with
`/`; an empty `dir` yields just the filename. -/
def pathJoin (dir file : String) : String :=
  if dir = "" then file
  else String.mk ((dir.data.reverse.dropWhile (fun c => c = '/')).reverse) ++ "/" ++ file

/-- The output path set for the pair of the node named `node_name` and the
angle-table entry `kv`, under base directory `base`. -/
def anglePath (base node_name : String) (kv : Int × Rot3) : String :=
  pathJoin base (output_file node_name kv.1)

/-- The body of the inner loop of `render_node_angles` for one angle-table
entry, in the successful case: set the camera rotation, set the output
path, invoke the render (recorded in the trace), and let the render write
the file.  `base` is the captured `OUTPUT_DIR`. -/
def stepA (base node_name : String) (s : HostState) (kv : Int × Rot3) : HostState :=
  let p := anglePath base node_name kv
  let s1 := { s with camera_rotation := kv.2, trace := s.trace ++ [Event.setRot kv.2] }
  let s2 := { s1 with filepath := p, trace := s1.trace ++ [Event.setPath p] }
  let s3 := { s2 with trace := s2.trace ++ [Event.render p] }
  { s3 with files := s3.files ++ [p] }

/-- The host state at the point where a render invocation fails: the camera
rotation and output path of the failing iteration are already set and the
invocation has occurred, but no file was written. -/
def failState (base node_name : String) (s : HostState) (kv : Int × Rot3) : HostState :=
  let p := anglePath base node_name kv
  let s1 := { s with camera_rotation := kv.2, trace := s.trace ++ [Event.setRot kv.2] }
  let s2 := { s1 with filepath := p, trace := s1.trace ++ [Event.setPath p] }
  { s2 with trace := s2.trace ++ [Event.render p] }

/-- The inner loop of `render_node_angles`
(`for k, v in ROTATION_ANGLES.items(): ...`), threading the host state and
the global render-invocation counter.  `ok cnt` is the outcome of the
`cnt`-th render invocation; a failure propagates as `.error` with the state
at the point of failure. -/
def render_angles_for_node (ok : Nat → Bool) (base node_name : String) :
    List (Int × Rot3) → HostState → Nat → Except HostState (HostState × Nat)
  | [], s, cnt => .ok (s, cnt)
  | kv :: rest, s, cnt =>
      if ok cnt then
        render_angles_for_node ok base node_name rest (stepA base node_name s kv) (cnt + 1)
      else
        .error (failState base node_name s kv)

/-- The body of the outer loop of `render_node_angles` for one node, in the
fully successful case: set the camera location once, then run the inner
loop over the whole angle table. -/
def stepNode (base : String) (s : HostState) (d : NodeEntry) : HostState :=
  ROTATION_ANGLES.foldl (stepA base d.node)
    { s with camera_location := d.loc, trace := s.trace ++ [Event.setLoc d.loc] }

/-- Embeds `render_node_angles(nodes)`: for each node dictionary, set the camera
location, then render every entry of `ROTATION_ANGLES`.  `base` is the
captured `OUTPUT_DIR`; `cnt` counts render invocations across the whole
run. -/
def render_node_angles (ok : Nat → Bool) (base : String) :
    List NodeEntry → HostState → Nat → Except HostState (HostState × Nat)
  | [], s, cnt => .ok (s, cnt)
  | d :: rest, s, cnt =>
      match render_angles_for_node ok base d.node ROTATION_ANGLES
          { s with camera_location := d.loc, trace := s.trace ++ [Event.setLoc d.loc] } cnt with
      | .error e => .error e
      | .ok (s2, cnt2) => render_node_angles ok base rest s2 cnt2

/-- Embeds `run()`: capture `OUTPUT_DIR = SCENE.render.filepath` (done at module
load, before anything is mutated), enumerate the nodes, render all angles
at each node, and finally restore the output path to the captured base.
Any host fault (missing collection, failed render) propagates as `.error`
with the host state at the point of failure. -/
def run (ok : Nat → Bool) (s : HostState) : Except HostState HostState :=
  let OUTPUT_DIR := s.filepath
  match get_node_locations s with
  | .error e => .error e
  | .ok nodes =>
    match render_node_angles ok OUTPUT_DIR nodes s 0 with
    | .error e => .error e
    | .ok (s2, _) => .ok { s2 with filepath := OUTPUT_DIR }

/-- The output paths of a fully successful run, in the order they are
written: markers outermost, angle-table entries innermost. -/
def pairPaths (base : String) (nodes : List NodeEntry) : List String :=
  nodes.flatMap (fun d => ROTATION_ANGLES.map (fun kv => anglePath base d.node kv))

/-- The per-entry event block of the inner loop: one camera-rotation write,
one output-path write, one render invocation, in that order. -/
def angleBlock (base node_name : String) (kv : Int × Rot3) : List Event :=
  [Event.setRot kv.2, Event.setPath (anglePath base node_name kv),
   Event.render (anglePath base node_name kv)]

/-- The event trace of a fully successful run for one node: one
camera-location write, then per angle-table entry one camera-rotation
write, one output-path write, and one render invocation. -/
def nodeTrace (base : String) (d : NodeEntry) : List Event :=
  Event.setLoc d.loc :: ROTATION_ANGLES.flatMap (angleBlock base d.node)

/-- The event trace of a fully successful run: node traces concatenated in
marker order. -/
def fullTrace (base : String) (nodes : List NodeEntry) : List Event :=
  nodes.flatMap (nodeTrace base)

/-- The render-invocation events of a trace. -/
def renders (t : List Event) : List Event :=
  t.filter (fun e => match e with | Event.render _ => true | _ => false)

/-- The output-path-write events of a trace. -/
def setPaths (t : List Event) : List Event :=
  t.filter (fun e => match e with | Event.setPath _ => true | _ => false)

/-- The host state a driver call ends in, whether it returned normally or
aborted with a propagated fault. -/
def outState (r : Except HostState (HostState × Nat)) : HostState :=
  match r with
  | .ok (t, _) => t
  | .error e => e

/-- The host state a whole run ends in, whether it returned normally or
aborted with a propagated fault. -/
def runState (r : Except HostState HostState) : HostState :=
  match r with
  | .ok t => t
  | .error e => e

/-- The file paths written on top of the files already present in the
initial state `s` by the run ending in state `t`. -/
def writtenFiles (s t : HostState) : List String :=
  t.files.drop s.files.length

/-! ## Concrete scenes used to witness the theorems -/

/-- Two marker empties, as in the spec's worked scenario. -/
def demoObjs : List Obj :=
  [{ name := "node1", location := (0, 0, 0) }, { name := "node2", location := (5, 0, 0) }]

/-- The node dictionaries of `demoObjs`. -/
def demoNodes : List NodeEntry :=
  demoObjs.map (fun obj => { node := obj.name, loc := obj.location })

/-- A scene holding the two demo markers in `FPV_nodes`, base output
directory `out`. -/
def demoState : HostState :=
  { collections := [("FPV_nodes", demoObjs)],
    camera_location := (1, 1, 1), camera_rotation := (0, 0, 0),
    filepath := "out", files := [], trace := [] }

/-- The same scene with a different camera pose and with one output file
already present on disk (as after a partial earlier run). -/
def demoState2 : HostState :=
  { demoState with
    camera_location := (2, 2, 2), camera_rotation := (radians 90, 0, 0),
    files := ["out/node1__angle_0.png"] }

/-- A scene whose `FPV_nodes` collection exists but is empty. -/
def demoEmpty : HostState :=
  { demoState with collections := [("FPV_nodes", [])] }

/-- A scene without any collection named `FPV_nodes`. -/
def demoNoColl : HostState :=
  { demoState with collections := [("Other", demoObjs)] }

/-! ## Basic facts about a single inner-loop step -/

theorem stepA_trace (base n : String) (s : HostState) (kv : Int × Rot3) :
    (stepA base n s kv).trace = s.trace ++ angleBlock base n kv := by
  simp [stepA, angleBlock]

theorem stepA_files (base n : String) (s : HostState) (kv : Int × Rot3) :
    (stepA base n s kv).files = s.files ++ [anglePath base n kv] := rfl

theorem stepA_collections (base n : String) (s : HostState) (kv : Int × Rot3) :
    (stepA base n s kv).collections = s.collections := rfl

theorem stepA_camera_location (base n : String) (s : HostState) (kv : Int × Rot3) :
    (stepA base n s kv).camera_location = s.camera_location := rfl

theorem failState_filepath (base n : String) (s : HostState) (kv : Int × Rot3) :
    (failState base n s kv).filepath = anglePath base n kv := rfl

theorem failState_files (base n : String) (s : HostState) (kv : Int × Rot3) :
    (failState base n s kv).files = s.files := rfl

theorem failState_collections (base n : String) (s : HostState) (kv : Int × Rot3) :
    (failState base n s kv).collections = s.collections := rfl

/-! ## The inner loop on a successful window of the oracle -/

theorem foldl_stepA_trace (base n : String) :
    ∀ (entries : List (Int × Rot3)) (s : HostState),
      (entries.foldl (stepA base n) s).trace = s.trace ++ entries.flatMap (angleBlock base n)
  | [], s => by simp
  | kv :: rest, s => by
      rw [List.foldl_cons, foldl_stepA_trace base n rest, stepA_trace]
      simp

theorem foldl_stepA_files (base n : String) :
    ∀ (entries : List (Int × Rot3)) (s : HostState),
      (entries.foldl (stepA base n) s).files = s.files ++ entries.map (anglePath base n)
  | [], s => by simp
  | kv :: rest, s => by
      rw [List.foldl_cons, foldl_stepA_files base n rest, stepA_files]
      simp

theorem foldl_stepA_collections (base n : String) :
    ∀ (entries : List (Int × Rot3)) (s : HostState),
      (entries.foldl (stepA base n) s).collections = s.collections
  | [], s => rfl
  | kv :: rest, s => by
      rw [List.foldl_cons, foldl_stepA_collections base n rest, stepA_collections]

theorem foldl_stepA_camera_location (base n : String) :
    ∀ (entries : List (Int × Rot3)) (s : HostState),
      (entries.foldl (stepA base n) s).camera_location = s.camera_location
  | [], s => rfl
  | kv :: rest, s => by
      rw [List.foldl_cons, foldl_stepA_camera_location base n rest, stepA_camera_location]

/-- If the oracle grants every render invocation of the window covered by
`entries`, the inner loop succeeds and is the fold of `stepA`. -/
theorem render_angles_for_node_ok (ok : Nat → Bool) (base n : String) :
    ∀ (entries : List (Int × Rot3)) (s : HostState) (cnt : Nat),
      (∀ j, j < entries.length → ok (cnt + j) = true) →
      render_angles_for_node ok base n entries s cnt =
        .ok (entries.foldl (stepA base n) s, cnt + entries.length)
  | [], s, cnt, _ => rfl
  | kv :: rest, s, cnt, h => by
      have h0 : ok cnt = true := by simpa using h 0 (Nat.succ_pos _)
      rw [render_angles_for_node, h0, if_pos rfl]
      rw [render_angles_for_node_ok ok base n rest (stepA base n s kv) (cnt + 1)
        (fun j hj => by
          have := h (j + 1) (by simp only [List.length_cons]; omega)
          simpa [Nat.add_assoc, Nat.add_comm 1 j] using this)]
      simp [List.foldl_cons]
      omega

/-- If the oracle grants the first `adone.length` render invocations of the
window and refuses the next one, the inner loop aborts in the
corresponding `failState`. -/
theorem render_angles_for_node_fail (ok : Nat → Bool) (base n : String) :
    ∀ (adone : List (Int × Rot3)) (kv : Int × Rot3) (arest : List (Int × Rot3))
      (s : HostState) (cnt : Nat),
      (∀ j, j < adone.length → ok (cnt + j) = true) →
      ok (cnt + adone.length) = false →
      render_angles_for_node ok base n (adone ++ kv :: arest) s cnt =
        .error (failState base n (adone.foldl (stepA base n) s) kv)
  | [], kv, arest, s, cnt, _, hbad => by
      have hbad0 : ok cnt = false := by simpa using hbad
      rw [List.nil_append, render_angles_for_node, hbad0]
      simp
  | a :: adone, kv, arest, s, cnt, h, hbad => by
      have h0 : ok cnt = true := by simpa using h 0 (Nat.succ_pos _)
      rw [List.cons_append, render_angles_for_node, h0, if_pos rfl]
      rw [render_angles_for_node_fail ok base n adone kv arest (stepA base n s a) (cnt + 1)
        (fun j hj => by
          have := h (j + 1) (by simp only [List.length_cons]; omega)
          simpa [Nat.add_assoc, Nat.add_comm 1 j] using this)
        (by
          have : cnt + (a :: adone).length = cnt + 1 + adone.length := by simp; omega
          rw [this] at hbad
          exact hbad)]
      rfl

/-! ## The outer loop -/

theorem ROTATION_ANGLES_length : ROTATION_ANGLES.length = 8 := rfl

theorem stepNode_trace (base : String) (s : HostState) (d : NodeEntry) :
    (stepNode base s d).trace = s.trace ++ nodeTrace base d := by
  rw [stepNode, foldl_stepA_trace, nodeTrace]
  simp

theorem stepNode_files (base : String) (s : HostState) (d : NodeEntry) :
    (stepNode base s d).files = s.files ++ ROTATION_ANGLES.map (anglePath base d.node) := by
  rw [stepNode, foldl_stepA_files]

theorem stepNode_collections (base : String) (s : HostState) (d : NodeEntry) :
    (stepNode base s d).collections = s.collections := by
  rw [stepNode, foldl_stepA_collections]

theorem foldl_stepNode_trace (base : String) :
    ∀ (nodes : List NodeEntry) (s : HostState),
      (nodes.foldl (stepNode base) s).trace = s.trace ++ fullTrace base nodes
  | [], s => by simp [fullTrace]
  | d :: rest, s => by
      rw [List.foldl_cons, foldl_stepNode_trace base rest, stepNode_trace]
      simp [fullTrace]

theorem foldl_stepNode_files (base : String) :
    ∀ (nodes : List NodeEntry) (s : HostState),
      (nodes.foldl (stepNode base) s).files = s.files ++ pairPaths base nodes
  | [], s => by simp [pairPaths]
  | d :: rest, s => by
      rw [List.foldl_cons, foldl_stepNode_files base rest, stepNode_files]
      simp [pairPaths]

theorem foldl_stepNode_collections (base : String) :
    ∀ (nodes : List NodeEntry) (s : HostState),
      (nodes.foldl (stepNode base) s).collections = s.collections
  | [], s => rfl
  | d :: rest, s => by
      rw [List.foldl_cons, foldl_stepNode_collections base rest, stepNode_collections]

/-- If the oracle grants every render invocation, the driver succeeds and
is the fold of `stepNode`, performing exactly 8 render invocations per
marker. -/
theorem render_node_angles_ok (ok : Nat → Bool) (hok : ∀ i, ok i = true) (base : String) :
    ∀ (nodes : List NodeEntry) (s : HostState) (cnt : Nat),
      render_node_angles ok base nodes s cnt =
        .ok (nodes.foldl (stepNode base) s, cnt + 8 * nodes.length)
  | [], s, cnt => by simp [render_node_angles]
  | d :: rest, s, cnt => by
      rw [render_node_angles,
        render_angles_for_node_ok ok base d.node ROTATION_ANGLES _ cnt
          (fun j _ => hok (cnt + j))]
      show render_node_angles ok base rest
        (ROTATION_ANGLES.foldl (stepA base d.node)
          { s with camera_location := d.loc, trace := s.trace ++ [Event.setLoc d.loc] })
        (cnt + ROTATION_ANGLES.length) = _
      rw [render_node_angles_ok ok hok base rest _ (cnt + ROTATION_ANGLES.length)]
      have harith : cnt + ROTATION_ANGLES.length + 8 * rest.length = cnt + 8 * (d :: rest).length := by
        rw [ROTATION_ANGLES_length]
        simp only [List.length_cons]
        omega
      rw [harith]
      rfl

/-- If the oracle grants the render invocations of the markers in `done`
and of the angle entries in `adone`, and refuses the next one, the driver
aborts in the `failState` of the pair of the marker `d` and the entry
`kv`. -/
theorem render_node_angles_fail (ok : Nat → Bool) (base : String) :
    ∀ (done : List NodeEntry) (d : NodeEntry) (rest : List NodeEntry)
      (adone : List (Int × Rot3)) (kv : Int × Rot3) (arest : List (Int × Rot3))
      (s : HostState) (cnt : Nat),
      ROTATION_ANGLES = adone ++ kv :: arest →
      (∀ j, j < 8 * done.length + adone.length → ok (cnt + j) = true) →
      ok (cnt + (8 * done.length + adone.length)) = false →
      render_node_angles ok base (done ++ d :: rest) s cnt =
        .error (failState base d.node
          (adone.foldl (stepA base d.node)
            { (done.foldl (stepNode base) s) with
                camera_location := d.loc,
                trace := (done.foldl (stepNode base) s).trace ++ [Event.setLoc d.loc] })
          kv)
  | [], d, rest, adone, kv, arest, s, cnt, hang, h, hbad => by
      rw [List.nil_append, render_node_angles, hang]
      rw [render_angles_for_node_fail ok base d.node adone kv arest _ cnt
        (fun j hj => h j (by simpa using hj))
        (by simpa using hbad)]
      rfl
  | dn :: done, d, rest, adone, kv, arest, s, cnt, hang, h, hbad => by
      rw [List.cons_append, render_node_angles,
        render_angles_for_node_ok ok base dn.node ROTATION_ANGLES _ cnt
          (fun j hj => h j (by
            rw [ROTATION_ANGLES_length] at hj
            simp only [List.length_cons]
            omega))]
      show render_node_angles ok base (done ++ d :: rest)
        (ROTATION_ANGLES.foldl (stepA base dn.node)
          { s with camera_location := dn.loc, trace := s.trace ++ [Event.setLoc dn.loc] })
        (cnt + ROTATION_ANGLES.length) = _
      rw [render_node_angles_fail ok base done d rest adone kv arest
        (ROTATION_ANGLES.foldl (stepA base dn.node)
          { s with camera_location := dn.loc, trace := s.trace ++ [Event.setLoc dn.loc] })
        (cnt + ROTATION_ANGLES.length) hang
        (fun j hj => by
          have hjj := h (8 + j) (by simp only [List.length_cons]; omega)
          rw [ROTATION_ANGLES_length]
          have harith : cnt + 8 + j = cnt + (8 + j) := by omega
          rw [harith]
          exact hjj)
        (by
          have harith : cnt + ROTATION_ANGLES.length + (8 * done.length + adone.length)
              = cnt + (8 * (dn :: done).length + adone.length) := by
            rw [ROTATION_ANGLES_length]
            simp only [List.length_cons]
            omega
          rw [harith]
          exact hbad)]
      rfl

/-! ## Reading the render and output-path events off a trace -/

theorem renders_append (a b : List Event) : renders (a ++ b) = renders a ++ renders b :=
  List.filter_append _ _

theorem setPaths_append (a b : List Event) : setPaths (a ++ b) = setPaths a ++ setPaths b :=
  List.filter_append _ _

theorem renders_angleBlock (base n : String) (kv : Int × Rot3) :
    renders (angleBlock base n kv) = [Event.render (anglePath base n kv)] := rfl

theorem setPaths_angleBlock (base n : String) (kv : Int × Rot3) :
    setPaths (angleBlock base n kv) = [Event.setPath (anglePath base n kv)] := rfl

theorem renders_angleBlocks (base n : String) :
    ∀ entries : List (Int × Rot3),
      renders (entries.flatMap (angleBlock base n)) =
        entries.map (fun kv => Event.render (anglePath base n kv))
  | [] => rfl
  | kv :: rest => by
      rw [List.flatMap_cons, renders_append, renders_angleBlock, renders_angleBlocks base n rest,
        List.map_cons]
      rfl

theorem setPaths_angleBlocks (base n : String) :
    ∀ entries : List (Int × Rot3),
      setPaths (entries.flatMap (angleBlock base n)) =
        entries.map (fun kv => Event.setPath (anglePath base n kv))
  | [] => rfl
  | kv :: rest => by
      rw [List.flatMap_cons, setPaths_append, setPaths_angleBlock, setPaths_angleBlocks base n rest,
        List.map_cons]
      rfl

theorem renders_nodeTrace (base : String) (d : NodeEntry) :
    renders (nodeTrace base d) =
      ROTATION_ANGLES.map (fun kv => Event.render (anglePath base d.node kv)) := by
  rw [nodeTrace]
  show renders (List.flatMap _ _) = _
  rw [renders_angleBlocks]

theorem setPaths_nodeTrace (base : String) (d : NodeEntry) :
    setPaths (nodeTrace base d) =
      ROTATION_ANGLES.map (fun kv => Event.setPath (anglePath base d.node kv)) := by
  rw [nodeTrace]
  show setPaths (List.flatMap _ _) = _
  rw [setPaths_angleBlocks]

theorem renders_fullTrace (base : String) :
    ∀ nodes : List NodeEntry,
      renders (fullTrace base nodes) =
        nodes.flatMap (fun d => ROTATION_ANGLES.map (fun kv => Event.render (anglePath base d.node kv)))
  | [] => rfl
  | d :: rest => by
      have hrec := renders_fullTrace base rest
      rw [fullTrace] at hrec ⊢
      rw [List.flatMap_cons, renders_append, renders_nodeTrace, hrec, List.flatMap_cons]

theorem setPaths_fullTrace (base : String) :
    ∀ nodes : List NodeEntry,
      setPaths (fullTrace base nodes) =
        nodes.flatMap (fun d => ROTATION_ANGLES.map (fun kv => Event.setPath (anglePath base d.node kv)))
  | [] => rfl
  | d :: rest => by
      have hrec := setPaths_fullTrace base rest
      rw [fullTrace] at hrec ⊢
      rw [List.flatMap_cons, setPaths_append, setPaths_nodeTrace, hrec, List.flatMap_cons]

/-! ## The scene's collections are never written, on any path -/

theorem render_angles_for_node_collections (ok : Nat → Bool) (base n : String) :
    ∀ (entries : List (Int × Rot3)) (s : HostState) (cnt : Nat),
      (outState (render_angles_for_node ok base n entries s cnt)).collections = s.collections
  | [], s, cnt => rfl
  | kv :: rest, s, cnt => by
      rw [render_angles_for_node]
      cases hoc : ok cnt with
      | true =>
          simp only [if_true]
          rw [render_angles_for_node_collections ok base n rest (stepA base n s kv) (cnt + 1),
            stepA_collections]
      | false =>
          simp only [Bool.false_eq_true, if_false]
          rfl

theorem render_node_angles_collections (ok : Nat → Bool) (base : String) :
    ∀ (nodes : List NodeEntry) (s : HostState) (cnt : Nat),
      (outState (render_node_angles ok base nodes s cnt)).collections = s.collections
  | [], s, cnt => rfl
  | d :: rest, s, cnt => by
      rw [render_node_angles]
      have hin := render_angles_for_node_collections ok base d.node ROTATION_ANGLES
        { s with camera_location := d.loc, trace := s.trace ++ [Event.setLoc d.loc] } cnt
      cases hr : render_angles_for_node ok base d.node ROTATION_ANGLES
          { s with camera_location := d.loc, trace := s.trace ++ [Event.setLoc d.loc] } cnt with
      | error e =>
          rw [hr] at hin
          exact hin
      | ok p =>
          rw [hr] at hin
          rw [render_node_angles_collections ok base rest p.1 p.2]
          exact hin

/-! ## Behaviour of the whole run -/

/-- A fully successful run: the driver folds `stepNode` over the enumerated
nodes, and the orchestrator finally restores the output path to the base
directory captured at startup. -/
theorem run_ok (ok : Nat → Bool) (hok : ∀ i, ok i = true) (s : HostState) (objs : List Obj)
    (hc : lookupCollection s NODE_COLLECTION = some objs) :
    run ok s =
      .ok { (objs.map (fun obj => { node := obj.name, loc := obj.location })).foldl
              (stepNode s.filepath) s with
            filepath := s.filepath } := by
  simp only [run, get_node_locations, hc]
  rw [render_node_angles_ok ok hok s.filepath]

/-- A run on a scene without the `FPV_nodes` collection aborts with the
host state untouched. -/
theorem run_missing (ok : Nat → Bool) (s : HostState)
    (hc : lookupCollection s NODE_COLLECTION = none) :
    run ok s = .error s := by
  simp only [run, get_node_locations, hc]

/-- Whether the run completes or aborts, the scene's collections (the
markers) are exactly as before. -/
theorem run_collections (ok : Nat → Bool) (s : HostState) :
    (runState (run ok s)).collections = s.collections := by
  cases hc : lookupCollection s NODE_COLLECTION with
  | none =>
      rw [run_missing ok s hc]
      rfl
  | some objs =>
      simp only [run, get_node_locations, hc]
      have hd := render_node_angles_collections ok s.filepath
        (objs.map (fun obj => { node := obj.name, loc := obj.location })) s 0
      cases hr : render_node_angles ok s.filepath
          (objs.map (fun obj => { node := obj.name, loc := obj.location })) s 0 with
      | error e =>
          rw [hr] at hd
          exact hd
      | ok p =>
          obtain ⟨s2, cnt2⟩ := p
          rw [hr] at hd
          exact hd

/-! ## The claims -/

/-- C1: For every marker sequence handed to the render driver, when every
render invocation succeeds, the driver performs exactly one render
invocation per (marker, angle-table entry) pair, with the loop over
markers outermost and the loop over angle-table entries innermost: the
render-invocation events appended to the trace are exactly the
marker-major list of per-pair renders, one per pair. -/
theorem C1_render_per_pair_marker_major (ok : Nat → Bool) (base : String)
    (nodes : List NodeEntry) (s : HostState) (cnt : Nat) (hok : ∀ i, ok i = true) :
    (render_node_angles ok base nodes s cnt).isOk = true ∧
    renders (outState (render_node_angles ok base nodes s cnt)).trace =
      renders s.trace ++
        nodes.flatMap (fun d =>
          ROTATION_ANGLES.map (fun kv => Event.render (anglePath base d.node kv))) := by
  rw [render_node_angles_ok ok hok base nodes s cnt]
  refine ⟨rfl, ?_⟩
  show renders (nodes.foldl (stepNode base) s).trace = _
  rw [foldl_stepNode_trace, renders_append, renders_fullTrace]

/-- Witness for C1 on the concrete two-marker scene. -/
theorem C1_witness :
    (render_node_angles (fun _ => true) "out" demoNodes demoState 0).isOk = true ∧
    renders (outState (render_node_angles (fun _ => true) "out" demoNodes demoState 0)).trace =
      renders demoState.trace ++
        demoNodes.flatMap (fun d =>
          ROTATION_ANGLES.map (fun kv => Event.render (anglePath "out" d.node kv))) :=
  C1_render_per_pair_marker_major (fun _ => true) "out" demoNodes demoState 0 (fun _ => rfl)

/-- C2: On a fully successful pass of the render driver, every output path
set on the host — one per (marker, angle-table entry) pair — is exactly
the base output directory joined with the filename
`{node}__angle_{heading}.png`: name, double underscore, literal
`angle_`, the decimal integer heading, `.png`. -/
theorem C2_output_filename_format (ok : Nat → Bool) (base : String)
    (nodes : List NodeEntry) (s : HostState) (cnt : Nat) (hok : ∀ i, ok i = true) :
    (render_node_angles ok base nodes s cnt).isOk = true ∧
    setPaths (outState (render_node_angles ok base nodes s cnt)).trace =
      setPaths s.trace ++
        nodes.flatMap (fun d =>
          ROTATION_ANGLES.map (fun kv =>
            Event.setPath (pathJoin base (d.node ++ "__angle_" ++ toString kv.1 ++ ".png")))) := by
  rw [render_node_angles_ok ok hok base nodes s cnt]
  refine ⟨rfl, ?_⟩
  show setPaths (nodes.foldl (stepNode base) s).trace = _
  rw [foldl_stepNode_trace, setPaths_append, setPaths_fullTrace]
  rfl

/-- Witness for C2 on the concrete two-marker scene. -/
theorem C2_witness :
    (render_node_angles (fun _ => true) "out" demoNodes demoState 0).isOk = true ∧
    setPaths (outState (render_node_angles (fun _ => true) "out" demoNodes demoState 0)).trace =
      setPaths demoState.trace ++
        demoNodes.flatMap (fun d =>
          ROTATION_ANGLES.map (fun kv =>
            Event.setPath (pathJoin "out" (d.node ++ "__angle_" ++ toString kv.1 ++ ".png")))) :=
  C2_output_filename_format (fun _ => true) "out" demoNodes demoState 0 (fun _ => rfl)

/-- C3: Every entry of the rotation-angle table with heading `k` and
rotation triple (pitch, roll, yaw) has pitch exactly 90° in radians and
yaw exactly the negated heading in radians, whatever the heading is. -/
theorem C3_pitch_fixed_yaw_negated (k : Int) (p r y : ℚ)
    (hmem : (k, (p, r, y)) ∈ ROTATION_ANGLES) :
    p = radians 90 ∧ y = radians (-(k : ℚ)) := by
  fin_cases hmem <;> norm_num [radians]

/-- Witness for C3 at the table entry with heading 45. -/
theorem C3_witness :
    radians 90 = radians 90 ∧ radians (-45) = radians (-((45 : Int) : ℚ)) :=
  C3_pitch_fixed_yaw_negated 45 (radians 90) (radians 0) (radians (-45))
    (List.Mem.tail _ (List.Mem.head _))

/-- C4: After a fully successful run, the host's global render-output-path
setting equals the base output directory captured at startup (the initial
`SCENE.render.filepath`), not the path of the last-rendered file. -/
theorem C4_output_path_restored (ok : Nat → Bool) (s : HostState) (objs : List Obj)
    (hok : ∀ i, ok i = true)
    (hc : lookupCollection s NODE_COLLECTION = some objs) :
    (run ok s).isOk = true ∧ (runState (run ok s)).filepath = s.filepath := by
  rw [run_ok ok hok s objs hc]
  exact ⟨rfl, rfl⟩

/-- Witness for C4 on the concrete two-marker scene. -/
theorem C4_witness :
    (run (fun _ => true) demoState).isOk = true ∧
    (runState (run (fun _ => true) demoState)).filepath = demoState.filepath :=
  C4_output_path_restored (fun _ => true) demoState demoObjs (fun _ => rfl) rfl

/-- C5: If no collection named `FPV_nodes` exists in the scene, the run
aborts with the collection-lookup fault and the host state untouched: no
render invocation occurs and no output file is produced. -/
theorem C5_missing_collection_aborts (ok : Nat → Bool) (s : HostState)
    (hc : lookupCollection s NODE_COLLECTION = none) :
    run ok s = .error s ∧
    (runState (run ok s)).files = s.files ∧
    renders (runState (run ok s)).trace = renders s.trace := by
  rw [run_missing ok s hc]
  exact ⟨rfl, rfl, rfl⟩

/-- Witness for C5 on a scene without the `FPV_nodes` collection. -/
theorem C5_witness :
    run (fun _ => true) demoNoColl = .error demoNoColl ∧
    (runState (run (fun _ => true) demoNoColl)).files = demoNoColl.files ∧
    renders (runState (run (fun _ => true) demoNoColl)).trace = renders demoNoColl.trace :=
  C5_missing_collection_aborts (fun _ => true) demoNoColl rfl

/-- On a fully successful run the files on disk are the initial files plus
the per-pair output paths in marker-major order. -/
theorem run_ok_files (ok : Nat → Bool) (s : HostState) (objs : List Obj)
    (hok : ∀ i, ok i = true)
    (hc : lookupCollection s NODE_COLLECTION = some objs) :
    (runState (run ok s)).files =
      s.files ++ pairPaths s.filepath
        (objs.map (fun obj => { node := obj.name, loc := obj.location })) := by
  rw [run_ok ok hok s objs hc]
  show ((objs.map (fun obj => { node := obj.name, loc := obj.location })).foldl
      (stepNode s.filepath) s).files = _
  rw [foldl_stepNode_files]

/-- C6: If a render invocation fails — after the renders of the markers in
`done` and, for the current marker `d`, of the angle entries in `adone`
all succeeded — the run aborts with the fault propagated; the host's
global output-path setting is left at the full file path set for the
failing iteration (not restored to the captured base), and the files
written by the earlier iterations remain on disk. -/
theorem C6_abort_leaves_path_mutated (ok : Nat → Bool) (s : HostState) (objs : List Obj)
    (done : List NodeEntry) (d : NodeEntry) (rest : List NodeEntry)
    (adone : List (Int × Rot3)) (kv : Int × Rot3) (arest : List (Int × Rot3))
    (hc : lookupCollection s NODE_COLLECTION = some objs)
    (hnodes : objs.map (fun obj => { node := obj.name, loc := obj.location }) = done ++ d :: rest)
    (hang : ROTATION_ANGLES = adone ++ kv :: arest)
    (h1 : ∀ j, j < 8 * done.length + adone.length → ok j = true)
    (h2 : ok (8 * done.length + adone.length) = false) :
    (run ok s).isOk = false ∧
    (runState (run ok s)).filepath = pathJoin s.filepath (output_file d.node kv.1) ∧
    (runState (run ok s)).files =
      s.files ++ pairPaths s.filepath done ++ adone.map (anglePath s.filepath d.node) := by
  have hfail := render_node_angles_fail ok s.filepath done d rest adone kv arest s 0 hang
    (fun j hj => by simpa using h1 j hj) (by simpa using h2)
  simp only [run, get_node_locations, hc]
  rw [hnodes, hfail]
  refine ⟨rfl, rfl, ?_⟩
  show (failState s.filepath d.node
      (adone.foldl (stepA s.filepath d.node)
        { (done.foldl (stepNode s.filepath) s) with
            camera_location := d.loc,
            trace := (done.foldl (stepNode s.filepath) s).trace ++ [Event.setLoc d.loc] })
      kv).files = _
  rw [failState_files, foldl_stepA_files]
  show (done.foldl (stepNode s.filepath) s).files ++ _ = _
  rw [foldl_stepNode_files]

/-- Witness for C6: the very first render invocation fails on the concrete
two-marker scene. -/
theorem C6_witness :
    (run (fun _ => false) demoState).isOk = false ∧
    (runState (run (fun _ => false) demoState)).filepath =
      pathJoin demoState.filepath (output_file "node1" 0) ∧
    (runState (run (fun _ => false) demoState)).files =
      demoState.files ++ pairPaths demoState.filepath [] ++
        List.map (anglePath demoState.filepath "node1") [] :=
  C6_abort_leaves_path_mutated (fun _ => false) demoState demoObjs
    [] { node := "node1", loc := (0, 0, 0) } [{ node := "node2", loc := (5, 0, 0) }]
    [] (0, (radians 90, radians 0, radians 0)) ROTATION_ANGLES.tail
    rfl rfl rfl (fun j hj => by simp at hj) rfl

/-- C7: On a fully successful pass of the render driver, the whole event
trace is the marker-major nesting in which the camera position is written
exactly once per marker — before that marker's angle loop, not once per
angle — and the camera rotation is written exactly once per
(marker, angle-table entry) pair, each rotation write (followed by the
output-path write) occurring before the pair's render invocation. -/
theorem C7_camera_write_discipline (ok : Nat → Bool) (base : String)
    (nodes : List NodeEntry) (s : HostState) (cnt : Nat) (hok : ∀ i, ok i = true) :
    (render_node_angles ok base nodes s cnt).isOk = true ∧
    (outState (render_node_angles ok base nodes s cnt)).trace =
      s.trace ++ fullTrace base nodes := by
  rw [render_node_angles_ok ok hok base nodes s cnt]
  exact ⟨rfl, foldl_stepNode_trace base nodes s⟩

/-- Witness for C7 on the concrete two-marker scene. -/
theorem C7_witness :
    (render_node_angles (fun _ => true) "out" demoNodes demoState 0).isOk = true ∧
    (outState (render_node_angles (fun _ => true) "out" demoNodes demoState 0)).trace =
      demoState.trace ++ fullTrace "out" demoNodes :=
  C7_camera_write_discipline (fun _ => true) "out" demoNodes demoState 0 (fun _ => rfl)

/-- Looking a collection up only depends on the scene's collections. -/
theorem lookupCollection_congr (s1 s2 : HostState)
    (hcol : s1.collections = s2.collections) (name : String) :
    lookupCollection s1 name = lookupCollection s2 name := by
  rw [lookupCollection, lookupCollection, hcol]

/-- C8: Two runs over the same collections and the same base output
directory write exactly the same list of output paths, whatever files
already exist: every pair's path is written unconditionally (no
skip-if-exists check), and no path is produced by one run but not the
other. -/
theorem C8_rerun_overwrites_same_paths (ok : Nat → Bool) (s1 s2 : HostState) (objs : List Obj)
    (hok : ∀ i, ok i = true)
    (hcol : s1.collections = s2.collections)
    (hbase : s1.filepath = s2.filepath)
    (hc : lookupCollection s1 NODE_COLLECTION = some objs) :
    (run ok s1).isOk = true ∧ (run ok s2).isOk = true ∧
    writtenFiles s1 (runState (run ok s1)) =
      pairPaths s1.filepath (objs.map (fun obj => { node := obj.name, loc := obj.location })) ∧
    writtenFiles s2 (runState (run ok s2)) =
      pairPaths s1.filepath (objs.map (fun obj => { node := obj.name, loc := obj.location })) := by
  have hc2 : lookupCollection s2 NODE_COLLECTION = some objs := by
    rw [← lookupCollection_congr s1 s2 hcol]
    exact hc
  refine ⟨?_, ?_, ?_, ?_⟩
  · rw [run_ok ok hok s1 objs hc]
    rfl
  · rw [run_ok ok hok s2 objs hc2]
    rfl
  · rw [writtenFiles, run_ok_files ok s1 objs hok hc]
    exact List.drop_left _ _
  · rw [writtenFiles, run_ok_files ok s2 objs hok hc2, hbase]
    exact List.drop_left _ _

/-- Witness for C8: the two concrete scenes share collections and base
directory but differ in camera pose and in the files already on disk. -/
theorem C8_witness :
    (run (fun _ => true) demoState).isOk = true ∧
    (run (fun _ => true) demoState2).isOk = true ∧
    writtenFiles demoState (runState (run (fun _ => true) demoState)) =
      pairPaths demoState.filepath
        (demoObjs.map (fun obj => { node := obj.name, loc := obj.location })) ∧
    writtenFiles demoState2 (runState (run (fun _ => true) demoState2)) =
      pairPaths demoState.filepath
        (demoObjs.map (fun obj => { node := obj.name, loc := obj.location })) :=
  C8_rerun_overwrites_same_paths (fun _ => true) demoState demoState2 demoObjs
    (fun _ => rfl) rfl rfl rfl

/-- C9: The markers are never created, mutated, or destroyed: the
enumerator is a read-only traversal returning one (name, position) entry
per object of the collection, in the host's enumeration order, and —
whether the run completes or aborts — the scene's collections (hence
every marker's name and location) are exactly as before the run.
Positions are copied by value into the camera, so the copy cannot alias
or later modify a marker's own location. -/
theorem C9_markers_read_only (ok : Nat → Bool) (s : HostState) (objs : List Obj)
    (hc : lookupCollection s NODE_COLLECTION = some objs) :
    get_node_locations s =
      .ok (objs.map (fun obj => { node := obj.name, loc := obj.location })) ∧
    (runState (run ok s)).collections = s.collections := by
  constructor
  · rw [get_node_locations, hc]
  · exact run_collections ok s

/-- Witness for C9 on the concrete two-marker scene. -/
theorem C9_witness :
    get_node_locations demoState =
      .ok (demoObjs.map (fun obj => { node := obj.name, loc := obj.location })) ∧
    (runState (run (fun _ => true) demoState)).collections = demoState.collections :=
  C9_markers_read_only (fun _ => true) demoState demoObjs rfl

/-- C10: If the `FPV_nodes` collection exists but is empty, the run
completes successfully and returns the host state exactly as it was: zero
render invocations, zero files written, camera position and rotation
untouched, and the global output-path setting equal to the base directory
captured at startup. -/
theorem C10_empty_collection_noop (ok : Nat → Bool) (s : HostState)
    (hc : lookupCollection s NODE_COLLECTION = some []) :
    run ok s = .ok s := by
  simp only [run, get_node_locations, hc, List.map_nil, render_node_angles]

/-- Witness for C10 on a scene with an empty `FPV_nodes` collection. -/
theorem C10_witness : run (fun _ => true) demoEmpty = .ok demoEmpty :=
  C10_empty_collection_noop (fun _ => true) demoEmpty rfl
